import Mathlib

/-!
Shallow embedding of the core of `ModelImporterPackage`
(`src/xxmi_launcher/core/packages/model_importers/model_importer.py`) from the
XXMI-Launcher repository, together with theorems settling the specification
claims about path validation, INI projection, backup/restore, the launch
orchestration and the install sequence.

Filesystem paths are modelled as lists of name components; the filesystem is a
finite association list from paths to nodes (files with content, or
directories).  Python exceptions are modelled by an explicit error type and
`Except`; fired events are modelled as an explicit trace.
-/

set_option autoImplicit false

namespace XXMI

/-- A filesystem path, as a list of name components (drive/root elided:
absoluteness of user-supplied strings is tracked separately, see `GPath`). -/
abbrev FsPath := List String

/-- `Path.name` of Python: the final path component (empty for the empty path). -/
def FsPath.name (p : FsPath) : String := p.getLastD ""

/-- The `/` operator of `pathlib`: append one component. -/
def FsPath.child (p : FsPath) (n : String) : FsPath := p ++ [n]

/-- A scalar INI value: the `Union[str, int, float]` of the config annotation
(float values are not exercised by any claim and are represented via `str`). -/
inductive IniScalar where
  | str (v : String)
  | int (v : Int)
deriving DecidableEq, Repr

/-- A value stored under `d3dx_ini[setting][section][option]`: either a direct
scalar (possibly a JSON `null`, i.e. Python `None`), or a sub-dictionary from
discriminator keys to scalars (again possibly `null`). -/
inductive D3dxEntry where
  | value (v : Option IniScalar)
  | table (m : List (String × Option IniScalar))
deriving DecidableEq, Repr

/-- What `set_default_ini_values` passes to `ini.set_option`: for `Constant`
settings this is the raw entry (scalar or whole sub-dictionary), for
`Bool`/`Map` settings the scalar looked up under the selected key. -/
inductive IniWriteValue where
  | scalar (v : IniScalar)
  | table (m : List (String × Option IniScalar))
deriving DecidableEq, Repr

/-- Content of a file on disk.  The `d3dx.ini` file written by the launcher is
kept structurally (the option list of the serialized `IniHandler` document);
arbitrary other bytes are `raw`. -/
inductive FileContent where
  | raw (s : String)
  | ini (options : List ((String × String) × IniWriteValue))
deriving DecidableEq, Repr

/-- A filesystem node: a file with content, or a directory. -/
inductive FsNode where
  | file (content : FileContent)
  | dir
deriving DecidableEq, Repr

/-- The filesystem: a finite map from paths to nodes, as an association list
with unique keys maintained by `storeFile`. -/
structure FileSystem where
  entries : List (FsPath × FsNode)
deriving DecidableEq, Repr

/-- Lookup of an association list by key (first match). -/
def lookupA {α β : Type} [DecidableEq α] : List (α × β) → α → Option β
  | [], _ => none
  | (k, v) :: rest, a => if k = a then some v else lookupA rest a

/-- Update of an association list at a key (replaces the first match, appends
if absent). -/
def storeA {α β : Type} [DecidableEq α] : List (α × β) → α → β → List (α × β)
  | [], a, b => [(a, b)]
  | (k, v) :: rest, a, b => if k = a then (a, b) :: rest else (k, v) :: storeA rest a b

theorem lookupA_storeA_self {α β : Type} [DecidableEq α] (l : List (α × β)) (a : α) (b : β) :
    lookupA (storeA l a b) a = some b := by
  induction l with
  | nil => simp [storeA, lookupA]
  | cons hd tl ih =>
    by_cases h : hd.1 = a
    · simp [storeA, lookupA, h]
    · simp [storeA, lookupA, h, ih]

theorem lookupA_storeA_ne {α β : Type} [DecidableEq α] (l : List (α × β)) (a a' : α) (b : β)
    (h : a ≠ a') : lookupA (storeA l a b) a' = lookupA l a' := by
  induction l with
  | nil => simp [storeA, lookupA, h]
  | cons hd tl ih =>
    by_cases hk : hd.1 = a
    · simp [storeA, lookupA, hk, h]
    · by_cases hk' : hd.1 = a'
      · simp [storeA, lookupA, hk, hk', Ne.symm h]
      · simp [storeA, lookupA, hk, hk', ih]

/-- Read a filesystem node. -/
def FileSystem.lookup (fs : FileSystem) (p : FsPath) : Option FsNode :=
  lookupA fs.entries p

/-- `Path.exists()`. -/
def FileSystem.pathExists (fs : FileSystem) (p : FsPath) : Bool :=
  (fs.lookup p).isSome

/-- `Path.is_dir()`. -/
def FileSystem.isDir (fs : FileSystem) (p : FsPath) : Bool :=
  fs.lookup p = some .dir

/-- Write (create or overwrite) a filesystem node. -/
def FileSystem.store (fs : FileSystem) (p : FsPath) (n : FsNode) : FileSystem :=
  ⟨storeA fs.entries p n⟩

theorem FileSystem.lookup_store_self (fs : FileSystem) (p : FsPath) (n : FsNode) :
    (fs.store p n).lookup p = some n := lookupA_storeA_self _ _ _

theorem FileSystem.lookup_store_ne (fs : FileSystem) (p q : FsPath) (n : FsNode)
    (h : p ≠ q) : (fs.store p n).lookup q = fs.lookup q := lookupA_storeA_ne _ _ _ _ h

/-- A user-facing path string, as parsed by `pathlib.Path`: its components plus
whether the string denotes an absolute path. -/
structure GPath where
  absolute : Bool
  components : FsPath
deriving DecidableEq, Repr

/-- Python exceptions raised by the embedded code. -/
inductive PyError where
  | valueError (msg : String)
  | keyError (key : String)
  | typeError (msg : String)
  | fileNotFoundError (p : FsPath)
  | isADirectoryError (p : FsPath)
deriving DecidableEq, Repr

/-- `validate_game_path` (model_importer.py lines 117-125): reject non-absolute
strings, then non-existent paths, then non-directories, in that order; return
the path unchanged otherwise.  The absoluteness check never consults the
filesystem. -/
def validate_game_path (fs : FileSystem) (game_folder : GPath) : Except PyError GPath :=
  if ¬ game_folder.absolute then
    .error (.valueError "Game folder is not a valid path!")
  else if ¬ fs.pathExists game_folder.components then
    .error (.valueError "Game folder does not exist!")
  else if ¬ fs.isDir game_folder.components then
    .error (.valueError "Game folder is not a directory!")
  else
    .ok game_folder

/-- The spec's `InvalidPath` error kind. -/
def invalidPathError : PyError := .valueError "Game folder is not a valid path!"

/-- The spec's `PathNotFound` error kind. -/
def pathNotFoundError : PyError := .valueError "Game folder does not exist!"

/-- The spec's `NotADirectory` error kind. -/
def notADirectoryError : PyError := .valueError "Game folder is not a directory!"

/-- The kind of a `d3dx_ini` setting (`SettingType` enum, lines 21-24). -/
inductive SettingType where
  | Constant
  | Bool
  | Map
deriving DecidableEq, Repr

/-- A runtime value passed as `setting_value`: the Migoto boolean flags, or a
string discriminator for `Map` settings. -/
inductive RuntimeValue where
  | bool (b : Bool)
  | str (s : String)
deriving DecidableEq, Repr

/-- Python truthiness of the (optional) `setting_value` argument. -/
def truthy : Option RuntimeValue → Bool
  | none => false
  | some (.bool b) => b
  | some (.str s) => !s.isEmpty

/-- The nested `d3dx_ini` mapping of `ModelImporterConfig`:
`setting name → section → option → entry`. -/
abbrev D3dxIni := List (String × List (String × List (String × D3dxEntry)))

/-- Modelled from the spec: the in-memory INI document of `IniHandler`
(`core/utils/ini_handler.py`, which is not under `src/`).  Per spec §2 and
§4.1 it supports get/set of a `[section] option = value` triple and "tracks
whether it was modified"; comments and ordering are preserved on serialization
and are not observable through get/set, so the document is modelled as its
option map plus the modified flag. -/
structure IniDoc where
  options : List ((String × String) × IniWriteValue)
  modified : Bool
deriving DecidableEq, Repr

/-- Modelled from the spec: `IniHandler.set_option` (not under `src/`; named
`setOption` here because `set_option` is a Lean keyword).  Writing a value
equal to the current one leaves the document untouched; any actual change
sets the modified flag — this is the semantics forced by spec §8's idempotence
property together with §4.1's "the document tracks whether it was modified". -/
def IniDoc.setOption (d : IniDoc) (sec opt : String) (v : IniWriteValue) : IniDoc :=
  if lookupA d.options (sec, opt) = some v then d
  else { options := storeA d.options (sec, opt) v, modified := true }

/-- `IniHandler.is_modified`. -/
def IniDoc.is_modified (d : IniDoc) : Bool := d.modified

/-- Modelled from the spec: parsing a file into an `IniHandler` document
(parser not under `src/`).  Structured content written by this launcher parses
back to exactly its option map with the modified flag clear; raw external
bytes are opaque to the claims and parse to an empty option map. -/
def parseIni : FileContent → IniDoc
  | .raw _ => ⟨[], false⟩
  | .ini opts => ⟨opts, false⟩

/-- The error message of line 164 (note: the source f-string has no closing
backtick after the key). -/
def missingValueMsg (sec opt : String) (key : Option String) : String :=
  "Config is missing value for section `" ++ sec ++ "` option `" ++ opt ++
    "` key `" ++ key.getD "None"

/-- The loop body of `set_default_ini_values` (lines 152-161) up to the
`value is None` check: compute the `key, value` pair for one
`(section, option)` entry.  `values[key]` on a missing key raises a bare
`KeyError` (dict subscription), `values[key]` on a non-dict raises
`TypeError`, and a stored JSON `null` yields `value = None`. -/
def resolveSettingValue (values : D3dxEntry) (setting_type : SettingType)
    (setting_value : Option RuntimeValue) :
    Except PyError (Option String × Option IniWriteValue) :=
  match setting_type with
  | .Constant =>
    match values with
    | .value none => .ok (none, none)
    | .value (some s) => .ok (none, some (.scalar s))
    | .table m => .ok (none, some (.table m))
  | .Bool =>
    let key := if truthy setting_value then "on" else "off"
    match values with
    | .value _ => .error (.typeError "value is not subscriptable")
    | .table m =>
      match lookupA m key with
      | none => .error (.keyError key)
      | some none => .ok (some key, none)
      | some (some s) => .ok (some key, some (.scalar s))
  | .Map =>
    match values with
    | .value _ => .error (.typeError "value is not subscriptable")
    | .table m =>
      match setting_value with
      | some (.str s) =>
        match lookupA m s with
        | none => .error (.keyError s)
        | some none => .ok (some s, none)
        | some (some sc) => .ok (some s, some (.scalar sc))
      | some (.bool b) => .error (.keyError (if b then "True" else "False"))
      | none => .error (.keyError "None")

/-- One iteration of the inner loop of `set_default_ini_values`
(lines 150-169): resolve the value, raise `ValueError` if it is `None`,
otherwise write it into the document.  (`ini.set_option` is total in the
structural document model, so the `IniWriteFailure` wrapper of lines 166-169
never fires.) -/
def applySettingOption (ini : IniDoc) (sec opt : String) (values : D3dxEntry)
    (setting_type : SettingType) (setting_value : Option RuntimeValue) :
    Except PyError IniDoc :=
  match resolveSettingValue values setting_type setting_value with
  | .error e => .error e
  | .ok (key, none) => .error (.valueError (missingValueMsg sec opt key))
  | .ok (_, some v) => .ok (ini.setOption sec opt v)

/-- The inner `for option, values in options.items()` loop (line 150). -/
def applySettingOptions (ini : IniDoc) (sec : String)
    (options : List (String × D3dxEntry)) (setting_type : SettingType)
    (setting_value : Option RuntimeValue) : Except PyError IniDoc :=
  match options with
  | [] => .ok ini
  | (opt, values) :: rest =>
    match applySettingOption ini sec opt values setting_type setting_value with
    | .error e => .error e
    | .ok ini' => applySettingOptions ini' sec rest setting_type setting_value

/-- The outer `for section, options in settings.items()` loop (line 149). -/
def applySettingSections (ini : IniDoc)
    (sections : List (String × List (String × D3dxEntry)))
    (setting_type : SettingType) (setting_value : Option RuntimeValue) :
    Except PyError IniDoc :=
  match sections with
  | [] => .ok ini
  | (sec, options) :: rest =>
    match applySettingOptions ini sec options setting_type setting_value with
    | .error e => .error e
    | .ok ini' => applySettingSections ini' rest setting_type setting_value

/-- `set_default_ini_values` (lines 145-169). -/
def set_default_ini_values (d3dx : D3dxIni) (ini : IniDoc) (setting_name : String)
    (setting_type : SettingType) (setting_value : Option RuntimeValue) :
    Except PyError IniDoc :=
  match lookupA d3dx setting_name with
  | none => .error (.valueError ("Config is missing " ++ setting_name ++ " setting!"))
  | some settings => applySettingSections ini settings setting_type setting_value

/-- The Migoto runtime flags read by `update_d3dx_ini`
(`Config.Active.Migoto`). -/
structure MigotoFlags where
  debug_logging : Bool
  mute_warnings : Bool
  enable_hunting : Bool
  dump_shaders : Bool
deriving DecidableEq, Repr

/-- The fields of `ModelImporterConfig` (lines 43-58) used by the embedded
operations. -/
structure ImporterConfig where
  package_name : String
  importer_folder : GPath
  game_folder : GPath
  overwrite_ini : Bool
  d3dx_ini : D3dxIni
deriving DecidableEq, Repr

/-- The `importer_path` property (lines 60-66): an absolute `importer_folder`
is used as is, a relative one resolves against the application root. -/
def importer_path (appRoot : FsPath) (cfg : ImporterConfig) : FsPath :=
  if cfg.importer_folder.absolute then cfg.importer_folder.components
  else appRoot ++ cfg.importer_folder.components

/-- Events fired (or, for the modal dialog, called) on the application event
bus.  Modelled from the spec: `Events.Fire` (`core/event_manager.py`, not
under `src/`) is fire-and-forget per spec §5 — the orchestrator "does not
block on their completion" — so firing appends to a trace and changes no
state. -/
inductive Event where
  | initializeInstallation
  | statusUpdate (status : String)
  | showErrorDialog (modal : Bool) (confirm_text cancel_text message : String)
  | updateRequest (no_thread force reinstall : Bool) (packages : List String)
  | openSettings
  | startAndInject (exe_path : GPath)
deriving DecidableEq, Repr

/-- The five `set_default_ini_values` calls of `update_d3dx_ini`
(lines 135-139). -/
def projectSettings (d3dx : D3dxIni) (mig : MigotoFlags) (ini : IniDoc) :
    Except PyError IniDoc := do
  let ini ← set_default_ini_values d3dx ini "core" .Constant none
  let ini ← set_default_ini_values d3dx ini "debug_logging" .Bool (some (.bool mig.debug_logging))
  let ini ← set_default_ini_values d3dx ini "mute_warnings" .Bool (some (.bool mig.mute_warnings))
  let ini ← set_default_ini_values d3dx ini "enable_hunting" .Bool (some (.bool mig.enable_hunting))
  let ini ← set_default_ini_values d3dx ini "dump_shaders" .Bool (some (.bool mig.dump_shaders))
  pure ini

/-- `update_d3dx_ini` (lines 127-143): fire a status update, open and parse
`<importer_path>/d3dx.ini` (raising `FileNotFoundError` when absent), project
the five setting groups into it, and rewrite the file only if the document
reports a modification. -/
def update_d3dx_ini (appRoot : FsPath) (cfg : ImporterConfig) (mig : MigotoFlags)
    (fs : FileSystem) : List Event × Except PyError FileSystem :=
  let evs := [Event.statusUpdate "Updating d3dx.ini..."]
  let ini_path := FsPath.child (importer_path appRoot cfg) "d3dx.ini"
  match fs.lookup ini_path with
  | none => (evs, .error (.fileNotFoundError ini_path))
  | some .dir => (evs, .error (.isADirectoryError ini_path))
  | some (.file content) =>
    match projectSettings cfg.d3dx_ini mig (parseIni content) with
    | .error e => (evs, .error e)
    | .ok ini =>
      if ini.is_modified then (evs, .ok (fs.store ini_path (.file (.ini ini.options))))
      else (evs, .ok fs)

/-- Modelled from the spec: `Paths.verify_path` (`core/path_manager.py`, not
under `src/`).  Per spec §4.2, `backup` "ensures the backup root directory
exists": create the directory if nothing exists at that path. -/
def verify_path (fs : FileSystem) (p : FsPath) : FileSystem :=
  match fs.lookup p with
  | some _ => fs
  | none => fs.store p .dir

/-- `shutil.copy2`: copy a file's content (metadata is not observable in the
model).  A missing source raises `FileNotFoundError`; a directory source
cannot be copied by `copy2`. -/
def copy2 (fs : FileSystem) (src dst : FsPath) : Except PyError FileSystem :=
  match fs.lookup src with
  | none => .error (.fileNotFoundError src)
  | some .dir => .error (.isADirectoryError src)
  | some (.file c) => .ok (fs.store dst (.file c))

/-- `__init__` (lines 74-76): before any `initialize_backup`, the backup root
`self.backups_path` is `None`. -/
def initial_backups_path : Option FsPath := none

/-- `initialize_backup` (lines 218-220): derive a fresh backup root from the
package name and the current timestamp. -/
def initialize_backup (backupsRoot : FsPath) (package_name : String)
    (now : String) : Option FsPath :=
  some (backupsRoot.child (package_name ++ " " ++ now))

/-- `backup` (lines 222-226): no-op when `file_path` does not exist; otherwise
ensure the backup root exists and copy the file into it under its own name.
With an uninitialized (`None`) backup root the path arithmetic
`self.backups_path / file_path.name` raises `TypeError`. -/
def backup (backups_path : Option FsPath) (fs : FileSystem) (file_path : FsPath) :
    Except PyError FileSystem :=
  if ¬ fs.pathExists file_path then .ok fs
  else
    match backups_path with
    | none => .error (.typeError "unsupported operand type: NoneType")
    | some root =>
      copy2 (verify_path fs root) file_path (root.child file_path.name)

/-- `restore` (lines 228-231): no-op when the *destination* `file_path` does
not exist (the guard mirrors `backup`'s and checks the destination, not the
backup copy); otherwise copy `backups_path / file_path.name` over
`file_path`. -/
def restore (backups_path : Option FsPath) (fs : FileSystem) (file_path : FsPath) :
    Except PyError FileSystem :=
  if ¬ fs.pathExists file_path then .ok fs
  else
    match backups_path with
    | none => .error (.typeError "unsupported operand type: NoneType")
    | some root => copy2 fs (root.child file_path.name) file_path

/-- Modelled from the spec: `Package.move_contents` (`core/package_manager.py`,
not under `src/`).  Per spec §4.5 it moves "all downloaded package contents
into the importer install path (overwriting)": every entry strictly below
`src` is rebased below `dst`, overwriting colliding destination entries. -/
def move_contents (fs : FileSystem) (src dst : FsPath) : FileSystem :=
  let moved : List (FsPath × FsNode) := fs.entries.filterMap fun e =>
    if src.isPrefixOf e.1 && e.1 != src then some (dst ++ e.1.drop src.length, e.2)
    else none
  let kept : List (FsPath × FsNode) := fs.entries.filter fun e =>
    !(src.isPrefixOf e.1 && e.1 != src) && (lookupA moved e.1).isNone
  ⟨moved ++ kept⟩

/-- Mutable package state touched by the install sequence: the filesystem and
the backup session root. -/
structure InstallState where
  fs : FileSystem
  backups_path : Option FsPath
deriving DecidableEq, Repr

/-- The primitive operations `install_latest_version` performs, in emission
order (the first corresponds to `Events.Fire(InitializeInstallation())`). -/
inductive InstallStep where
  | fireInitializeInstallation
  | initializeBackup (root : FsPath)
  | backupFile (p : FsPath)
  | moveContents (src dst : FsPath)
  | restoreFile (p : FsPath)
deriving DecidableEq, Repr

/-- `install_latest_version` (lines 99-109): fire the installation-start
event, initialize a fresh backup session, back up `<importer_path>/d3dx.ini`,
move the downloaded contents into the importer path, and restore the INI from
backup exactly when `overwrite_ini` is false.  The `clean` parameter of the
source is accepted and never read. -/
def install_latest_version (appRoot backupsRoot : FsPath) (cfg : ImporterConfig)
    (package_name : String) (now : String) (downloaded_asset_path : FsPath)
    (st : InstallState) (clean : Bool) :
    List InstallStep × Except PyError InstallState :=
  let bp := initialize_backup backupsRoot package_name now
  let root := backupsRoot.child (package_name ++ " " ++ now)
  let d3dx_ini_path := (importer_path appRoot cfg).child "d3dx.ini"
  let steps := [InstallStep.fireInitializeInstallation, .initializeBackup root,
    .backupFile d3dx_ini_path]
  match backup bp st.fs d3dx_ini_path with
  | .error e => (steps, .error e)
  | .ok fs1 =>
    let fs2 := move_contents fs1 downloaded_asset_path (importer_path appRoot cfg)
    let steps := steps ++ [.moveContents downloaded_asset_path (importer_path appRoot cfg)]
    if ¬ cfg.overwrite_ini then
      match restore bp fs2 d3dx_ini_path with
      | .error e => (steps ++ [.restoreFile d3dx_ini_path], .error e)
      | .ok fs3 => (steps ++ [.restoreFile d3dx_ini_path], .ok ⟨fs3, bp⟩)
    else (steps, .ok ⟨fs2, bp⟩)

/-- `validate_package_files` (lines 201-216): when `<importer_path>/d3dx.ini`
is missing, show the modal confirm dialog; if the user declines, raise the
`CorruptInstallation` error; if the user accepts, fire the forced-reinstall
request and return normally. -/
def validate_package_files (appRoot : FsPath) (cfg : ImporterConfig)
    (active_importer metadata_package_name : String)
    (user_requested_restore : Bool) (fs : FileSystem) :
    List Event × Option PyError :=
  let ini_path := (importer_path appRoot cfg).child "d3dx.ini"
  if fs.pathExists ini_path then ([], none)
  else
    let msg := active_importer ++ " installation is damaged!\n" ++
      "Details: Missing critical file: " ++ ini_path.name ++ "!\n" ++
      "Would you like to restore " ++ active_importer ++ " automatically?"
    let evs := [Event.showErrorDialog true "Restore" "Cancel" msg]
    if ¬ user_requested_restore then
      (evs, some (.valueError ("Missing critical file: " ++ ini_path.name ++ "!")))
    else
      (evs ++ [Event.updateRequest true true true [metadata_package_name]], none)

/-- The spec's `CorruptInstallation` error kind (for the `d3dx.ini` file). -/
def corruptInstallationError : PyError :=
  .valueError "Missing critical file: d3dx.ini!"

/-- The abstract methods each concrete game integration supplies
(`get_game_exe_path`/`validate_game_exe_path`, `autodetect_game_folder`,
`initialize_game_launch` are `NotImplementedError` in the base class). -/
structure ImporterHooks where
  validate_game_exe_path : GPath → Except PyError GPath
  autodetect_game_folder : Except PyError GPath
  initialize_game_launch : GPath → Except PyError Unit

/-- The body of the `try` block of `start_game` (lines 181-182): validate the
configured game folder and locate its executable. -/
def resolve_game_path (fs : FileSystem) (hooks : ImporterHooks) (g : GPath) :
    Except PyError (GPath × GPath) := do
  let game_path ← validate_game_path fs g
  let game_exe_path ← hooks.validate_game_exe_path game_path
  pure (game_path, game_exe_path)

/-- The body of the `except` block of `start_game` (lines 185-187): autodetect
the game folder, validate it and locate its executable. -/
def autodetect_resolve (fs : FileSystem) (hooks : ImporterHooks) :
    Except PyError (GPath × GPath × GPath) := do
  let game_folder ← hooks.autodetect_game_folder
  let game_path ← validate_game_path fs game_folder
  let game_exe_path ← hooks.validate_game_exe_path game_path
  pure (game_folder, game_path, game_exe_path)

/-- The observable result of a `start_game` run: the fired events, the
(possibly updated) configuration, the final filesystem, and the propagated
exception if any. -/
structure LaunchOutcome where
  events : List Event
  cfg : ImporterConfig
  fs : FileSystem
  error : Option PyError
deriving DecidableEq, Repr

/-- `start_game` (lines 174-196): integrity check, INI update, game-path
resolution with one autodetect fallback (persisting the autodetected folder on
success, firing `OpenSettings` and returning without error when the fallback
also fails), subclass launch hook, and the `StartAndInject` handoff. -/
def start_game (appRoot : FsPath) (hooks : ImporterHooks)
    (active_importer metadata_package_name : String) (mig : MigotoFlags)
    (user_requested_restore : Bool) (cfg : ImporterConfig) (fs : FileSystem) :
    LaunchOutcome :=
  match validate_package_files appRoot cfg active_importer metadata_package_name
      user_requested_restore fs with
  | (evs0, some e) => ⟨evs0, cfg, fs, some e⟩
  | (evs0, none) =>
    match update_d3dx_ini appRoot cfg mig fs with
    | (evs1, .error e) => ⟨evs0 ++ evs1, cfg, fs, some e⟩
    | (evs1, .ok fs1) =>
      let evs := evs0 ++ evs1
      match resolve_game_path fs1 hooks cfg.game_folder with
      | .ok (game_path, game_exe_path) =>
        match hooks.initialize_game_launch game_path with
        | .error e => ⟨evs, cfg, fs1, some e⟩
        | .ok _ => ⟨evs ++ [Event.startAndInject game_exe_path], cfg, fs1, none⟩
      | .error _ =>
        match autodetect_resolve fs1 hooks with
        | .ok (game_folder, game_path, game_exe_path) =>
          let cfg' := { cfg with game_folder := game_folder }
          match hooks.initialize_game_launch game_path with
          | .error e => ⟨evs, cfg', fs1, some e⟩
          | .ok _ => ⟨evs ++ [Event.startAndInject game_exe_path], cfg', fs1, none⟩
        | .error _ => ⟨evs ++ [Event.openSettings], cfg, fs1, none⟩

/-- C1: `validate_game_path` returns an absolute existing directory path
unchanged; a non-absolute input fails with `InvalidPath` independently of the
filesystem (so before any filesystem check); an absolute non-existent input
fails with `PathNotFound`; an absolute existing non-directory input fails with
`NotADirectory`. -/
theorem validate_game_path_spec (fs : FileSystem) (g : GPath) :
    (g.absolute = true → fs.lookup g.components = some .dir →
      validate_game_path fs g = .ok g) ∧
    (g.absolute = false →
      ∀ fs' : FileSystem, validate_game_path fs' g = .error invalidPathError) ∧
    (g.absolute = true → fs.lookup g.components = none →
      validate_game_path fs g = .error pathNotFoundError) ∧
    (g.absolute = true → ∀ c, fs.lookup g.components = some (.file c) →
      validate_game_path fs g = .error notADirectoryError) := by
  refine ⟨fun ha hd => ?_, fun ha fs' => ?_, fun ha hn => ?_, fun ha c hf => ?_⟩
  · simp [validate_game_path, FileSystem.pathExists, FileSystem.isDir, ha, hd]
  · simp [validate_game_path, ha, invalidPathError]
  · simp [validate_game_path, FileSystem.pathExists, FileSystem.isDir, ha, hn,
      pathNotFoundError]
  · simp [validate_game_path, FileSystem.pathExists, FileSystem.isDir, ha, hf,
      notADirectoryError]

/-- Witness for C1 at concrete inputs: an absolute existing directory is
returned unchanged, and a relative path is rejected as `InvalidPath` on the
empty filesystem (no filesystem entry consulted). -/
theorem validate_game_path_spec_witness :
    validate_game_path ⟨[(["C:", "Games", "Genshin"], .dir)]⟩ ⟨true, ["C:", "Games", "Genshin"]⟩
        = .ok ⟨true, ["C:", "Games", "Genshin"]⟩ ∧
    validate_game_path ⟨[]⟩ ⟨false, ["relative", "path"]⟩ = .error invalidPathError ∧
    validate_game_path ⟨[]⟩ ⟨true, ["C:", "Nowhere"]⟩ = .error pathNotFoundError ∧
    validate_game_path ⟨[(["C:", "f.txt"], .file (.raw "x"))]⟩ ⟨true, ["C:", "f.txt"]⟩
        = .error notADirectoryError :=
  ⟨(validate_game_path_spec ⟨[(["C:", "Games", "Genshin"], .dir)]⟩
      ⟨true, ["C:", "Games", "Genshin"]⟩).1 rfl (by decide),
   (validate_game_path_spec ⟨[]⟩ ⟨false, ["relative", "path"]⟩).2.1 rfl ⟨[]⟩,
   (validate_game_path_spec ⟨[]⟩ ⟨true, ["C:", "Nowhere"]⟩).2.2.1 rfl (by decide),
   (validate_game_path_spec ⟨[(["C:", "f.txt"], .file (.raw "x"))]⟩
      ⟨true, ["C:", "f.txt"]⟩).2.2.2 rfl (.raw "x") (by decide)⟩

/-- C3 (code bug): the `Bool` projector does select the `"on"` sub-value for a
truthy runtime value and the `"off"` sub-value for a falsy one, and an absent
setting name does raise the `MissingSetting` error; but when the selected key
is absent from the sub-value dictionary the code raises a bare `KeyError`
carrying only the key — the `MissingSettingValue` `ValueError` naming section,
option and key (line 164) is unreachable for missing keys, because the dict
subscription `values[key]` (lines 158, 161) raises first.  That `ValueError`
fires only when the stored value is an explicit `null`. -/
theorem set_default_ini_values_missing_key_is_bare_keyError :
    (set_default_ini_values
        [("debug_logging", [("Logging", [("calls", .table [("on", some (.int 1)), ("off", some (.int 0))])])])]
        ⟨[], false⟩ "debug_logging" .Bool (some (.bool true))
      = .ok ⟨[(("Logging", "calls"), .scalar (.int 1))], true⟩) ∧
    (set_default_ini_values
        [("debug_logging", [("Logging", [("calls", .table [("on", some (.int 1)), ("off", some (.int 0))])])])]
        ⟨[], false⟩ "debug_logging" .Bool (some (.bool false))
      = .ok ⟨[(("Logging", "calls"), .scalar (.int 0))], true⟩) ∧
    (set_default_ini_values [] ⟨[], false⟩ "debug_logging" .Bool (some (.bool false))
      = .error (.valueError "Config is missing debug_logging setting!")) ∧
    (set_default_ini_values
        [("debug_logging", [("Logging", [("calls", .table [("on", some (.int 1))])])])]
        ⟨[], false⟩ "debug_logging" .Bool (some (.bool false))
      = .error (.keyError "off")) ∧
    (set_default_ini_values
        [("debug_logging", [("Logging", [("calls", .table [("on", some (.int 1)), ("off", none)])])])]
        ⟨[], false⟩ "debug_logging" .Bool (some (.bool false))
      = .error (.valueError (missingValueMsg "Logging" "calls" (some "off")))) := by
  refine ⟨?_, ?_, ?_, ?_, ?_⟩ <;> rfl

/-- C9: the `clean` argument of `install_latest_version` is never read — runs
with `clean = true` and with `clean = false` from the same configuration and
filesystem state produce the identical step trace and the identical resulting
state. -/
theorem install_latest_version_ignores_clean (appRoot backupsRoot : FsPath)
    (cfg : ImporterConfig) (package_name now : String) (dl : FsPath)
    (st : InstallState) (c₁ c₂ : Bool) :
    install_latest_version appRoot backupsRoot cfg package_name now dl st c₁ =
      install_latest_version appRoot backupsRoot cfg package_name now dl st c₂ := rfl

/-- C10: before the first `initialize_backup` the backup root is unset
(`None`); in that state `backup` on a non-existent file still returns without
error (the existence guard fires first), while `backup` — and likewise
`restore` — on an existing file fails with a `TypeError` instead of copying
anywhere. -/
theorem backup_requires_initialized_session (fs : FileSystem) (fp : FsPath) :
    initial_backups_path = none ∧
    (fs.pathExists fp = false →
      backup initial_backups_path fs fp = .ok fs ∧
      restore initial_backups_path fs fp = .ok fs) ∧
    (fs.pathExists fp = true →
      backup initial_backups_path fs fp
          = .error (.typeError "unsupported operand type: NoneType") ∧
      restore initial_backups_path fs fp
          = .error (.typeError "unsupported operand type: NoneType")) := by
  refine ⟨rfl, fun h => ?_, fun h => ?_⟩
  · constructor <;> simp [backup, restore, h]
  · constructor <;> simp [backup, restore, initial_backups_path, h]

/-- Witness for C10: on the empty filesystem a backup of a missing file is a
no-op, and with a file present the uninitialized session raises. -/
theorem backup_requires_initialized_session_witness :
    backup initial_backups_path ⟨[]⟩ ["C:", "XXMI", "d3dx.ini"] = .ok ⟨[]⟩ ∧
    backup initial_backups_path ⟨[(["C:", "XXMI", "d3dx.ini"], .file (.raw "x"))]⟩
        ["C:", "XXMI", "d3dx.ini"]
      = .error (.typeError "unsupported operand type: NoneType") :=
  ⟨((backup_requires_initialized_session ⟨[]⟩ ["C:", "XXMI", "d3dx.ini"]).2.1
      (by decide)).1,
   ((backup_requires_initialized_session
      ⟨[(["C:", "XXMI", "d3dx.ini"], .file (.raw "x"))]⟩
      ["C:", "XXMI", "d3dx.ini"]).2.2 (by decide)).1⟩

/-- C8: when the destination file exists but the current backup root holds no
copy under the destination's file name, `restore` is not a no-op: the
underlying `shutil.copy2` fails with `FileNotFoundError`, which propagates to
the caller (an error result carries no filesystem change, so the destination
content is untouched). -/
theorem restore_missing_backup_copy_errors (root : FsPath) (fs : FileSystem)
    (fp : FsPath) (h1 : fs.pathExists fp = true)
    (h2 : fs.lookup (root.child fp.name) = none) :
    restore (some root) fs fp = .error (.fileNotFoundError (root.child fp.name)) := by
  simp [restore, h1, copy2, h2]

/-- Witness for C8: a file exists at the destination, the backup root is
empty, and `restore` propagates the `FileNotFoundError` of the missing backup
copy. -/
theorem restore_missing_backup_copy_errors_witness :
    restore (some ["C:", "Backups", "XXMI 2026-01-01 00-00-00"])
        ⟨[(["C:", "XXMI", "d3dx.ini"], .file (.raw "x"))]⟩ ["C:", "XXMI", "d3dx.ini"]
      = .error (.fileNotFoundError
          (FsPath.child ["C:", "Backups", "XXMI 2026-01-01 00-00-00"] "d3dx.ini")) :=
  restore_missing_backup_copy_errors ["C:", "Backups", "XXMI 2026-01-01 00-00-00"]
    ⟨[(["C:", "XXMI", "d3dx.ini"], .file (.raw "x"))]⟩ ["C:", "XXMI", "d3dx.ini"]
    (by decide) (by decide)

/-- C7: a successful `install_latest_version` run performs, in order: the
installation-start announcement, initialization of a fresh backup session
(root derived from the package name and timestamp), the backup of
`<importer_path>/d3dx.ini`, the move of the downloaded contents into the
importer path, and — exactly when `overwrite_ini` is false — the restore of
the pre-install `d3dx.ini` from the backup. -/
theorem install_latest_version_sequence (appRoot backupsRoot : FsPath)
    (cfg : ImporterConfig) (package_name now : String) (dl : FsPath)
    (st : InstallState) (clean : Bool) (st' : InstallState)
    (h : (install_latest_version appRoot backupsRoot cfg package_name now dl
        st clean).2 = .ok st') :
    (install_latest_version appRoot backupsRoot cfg package_name now dl
        st clean).1 =
      [.fireInitializeInstallation,
       .initializeBackup (backupsRoot.child (package_name ++ " " ++ now)),
       .backupFile ((importer_path appRoot cfg).child "d3dx.ini"),
       .moveContents dl (importer_path appRoot cfg)] ++
      (if cfg.overwrite_ini then []
       else [.restoreFile ((importer_path appRoot cfg).child "d3dx.ini")]) := by
  unfold install_latest_version at h ⊢
  rcases hb : backup (initialize_backup backupsRoot package_name now) st.fs
      ((importer_path appRoot cfg).child "d3dx.ini") with e | fs1
  · simp [hb] at h
  · simp only [hb] at h ⊢
    by_cases ho : cfg.overwrite_ini
    · simp [ho]
    · rcases hr : restore (initialize_backup backupsRoot package_name now)
          (move_contents fs1 dl (importer_path appRoot cfg))
          ((importer_path appRoot cfg).child "d3dx.ini") with e | fs3
      · simp [ho, hr] at h
      · simp [ho, hr]

/-- Witness for C7: concrete successful runs with `overwrite_ini = true`
(no restore step) and `overwrite_ini = false` (restore step emitted). -/
theorem install_latest_version_sequence_witness :
    (install_latest_version [] ["C:", "Backups"]
        ⟨"XXMI", ⟨true, ["C:", "XXMI"]⟩, ⟨true, ["C:", "Game"]⟩, true, []⟩
        "XXMI" "2026-01-01 00-00-00" ["C:", "dl"] ⟨⟨[]⟩, none⟩ true).1 =
      [.fireInitializeInstallation,
       .initializeBackup ["C:", "Backups", "XXMI 2026-01-01 00-00-00"],
       .backupFile ["C:", "XXMI", "d3dx.ini"],
       .moveContents ["C:", "dl"] ["C:", "XXMI"]] ∧
    (install_latest_version [] ["C:", "Backups"]
        ⟨"XXMI", ⟨true, ["C:", "XXMI"]⟩, ⟨true, ["C:", "Game"]⟩, false, []⟩
        "XXMI" "2026-01-01 00-00-00" ["C:", "dl"] ⟨⟨[]⟩, none⟩ true).1 =
      [.fireInitializeInstallation,
       .initializeBackup ["C:", "Backups", "XXMI 2026-01-01 00-00-00"],
       .backupFile ["C:", "XXMI", "d3dx.ini"],
       .moveContents ["C:", "dl"] ["C:", "XXMI"],
       .restoreFile ["C:", "XXMI", "d3dx.ini"]] :=
  ⟨install_latest_version_sequence [] ["C:", "Backups"]
      ⟨"XXMI", ⟨true, ["C:", "XXMI"]⟩, ⟨true, ["C:", "Game"]⟩, true, []⟩
      "XXMI" "2026-01-01 00-00-00" ["C:", "dl"] ⟨⟨[]⟩, none⟩ true _ rfl,
   install_latest_version_sequence [] ["C:", "Backups"]
      ⟨"XXMI", ⟨true, ["C:", "XXMI"]⟩, ⟨true, ["C:", "Game"]⟩, false, []⟩
      "XXMI" "2026-01-01 00-00-00" ["C:", "dl"] ⟨⟨[]⟩, none⟩ true _ rfl⟩

/-- C6: after a successful `backup` of an existing file, the backup root holds
a copy of its pre-backup content; a later `restore` on the same path (with the
backup copy untouched in between) rewrites the destination with exactly that
pre-backup content when the destination still exists, and is a no-op when the
destination was deleted in between — its guard checks the destination, not
the backup copy.  Hence the destination ends up byte-identical to its
pre-backup content if and only if it still existed at restore time. -/
theorem backup_restore_roundtrip (root : FsPath) (s0 s1 s2 : FileSystem)
    (fp : FsPath) (c0 : FileContent)
    (hfile : s0.lookup fp = some (.file c0))
    (hbk : backup (some root) s0 fp = .ok s1)
    (hintact : s2.lookup (root.child fp.name) = some (.file c0)) :
    s1.lookup (root.child fp.name) = some (.file c0) ∧
    (s2.pathExists fp = true →
      restore (some root) s2 fp = .ok (s2.store fp (.file c0)) ∧
      (s2.store fp (.file c0)).lookup fp = some (.file c0)) ∧
    (s2.pathExists fp = false → restore (some root) s2 fp = .ok s2) := by
  have hex : s0.pathExists fp = true := by
    simp [FileSystem.pathExists, hfile]
  refine ⟨?_, fun h2 => ?_, fun h2 => ?_⟩
  · rw [backup] at hbk
    simp only [hex, Bool.not_true, Bool.false_eq_true, if_false] at hbk
    rcases hroot : s0.lookup root with _ | n
    · rw [verify_path, hroot] at hbk
      by_cases heq : root = fp
      · subst heq
        rw [copy2, FileSystem.lookup_store_self] at hbk
        exact absurd hbk (by simp)
      · rw [copy2, FileSystem.lookup_store_ne _ _ _ _ heq, hfile] at hbk
        cases hbk
        exact FileSystem.lookup_store_self _ _ _
    · rw [verify_path, hroot] at hbk
      rw [copy2, hfile] at hbk
      cases hbk
      exact FileSystem.lookup_store_self _ _ _
  · rw [restore]
    simp only [h2, Bool.not_true, Bool.false_eq_true, if_false]
    rw [copy2, hintact]
    exact ⟨rfl, FileSystem.lookup_store_self _ _ _⟩
  · rw [restore]
    simp [h2]

/-- Witness for C6: a concrete file is backed up; restoring over a modified
destination brings back the original bytes, while restoring after the
destination was deleted is a no-op. -/
theorem backup_restore_roundtrip_witness :
    (backup (some ["C:", "Backups", "B1"])
        ⟨[(["C:", "XXMI", "d3dx.ini"], .file (.raw "orig"))]⟩
        ["C:", "XXMI", "d3dx.ini"]).isOk = true ∧
    restore (some ["C:", "Backups", "B1"])
        ⟨[(FsPath.child ["C:", "Backups", "B1"] "d3dx.ini", .file (.raw "orig")),
          (["C:", "XXMI", "d3dx.ini"], .file (.raw "overwritten"))]⟩
        ["C:", "XXMI", "d3dx.ini"]
      = .ok (FileSystem.store
          ⟨[(FsPath.child ["C:", "Backups", "B1"] "d3dx.ini", .file (.raw "orig")),
            (["C:", "XXMI", "d3dx.ini"], .file (.raw "overwritten"))]⟩
          ["C:", "XXMI", "d3dx.ini"] (.file (.raw "orig"))) ∧
    restore (some ["C:", "Backups", "B1"])
        ⟨[(FsPath.child ["C:", "Backups", "B1"] "d3dx.ini", .file (.raw "orig"))]⟩
        ["C:", "XXMI", "d3dx.ini"]
      = .ok ⟨[(FsPath.child ["C:", "Backups", "B1"] "d3dx.ini", .file (.raw "orig"))]⟩ := by
  have h1 := backup_restore_roundtrip ["C:", "Backups", "B1"]
    ⟨[(["C:", "XXMI", "d3dx.ini"], .file (.raw "orig"))]⟩
    (FileSystem.store
      (verify_path ⟨[(["C:", "XXMI", "d3dx.ini"], .file (.raw "orig"))]⟩
        ["C:", "Backups", "B1"])
      (FsPath.child ["C:", "Backups", "B1"] "d3dx.ini") (.file (.raw "orig")))
    ⟨[(FsPath.child ["C:", "Backups", "B1"] "d3dx.ini", .file (.raw "orig")),
      (["C:", "XXMI", "d3dx.ini"], .file (.raw "overwritten"))]⟩
    ["C:", "XXMI", "d3dx.ini"] (.raw "orig") (by decide) rfl (by decide)
  have h2 := backup_restore_roundtrip ["C:", "Backups", "B1"]
    ⟨[(["C:", "XXMI", "d3dx.ini"], .file (.raw "orig"))]⟩
    (FileSystem.store
      (verify_path ⟨[(["C:", "XXMI", "d3dx.ini"], .file (.raw "orig"))]⟩
        ["C:", "Backups", "B1"])
      (FsPath.child ["C:", "Backups", "B1"] "d3dx.ini") (.file (.raw "orig")))
    ⟨[(FsPath.child ["C:", "Backups", "B1"] "d3dx.ini", .file (.raw "orig"))]⟩
    ["C:", "XXMI", "d3dx.ini"] (.raw "orig") (by decide) rfl (by decide)
  refine ⟨by decide, (h1.2.1 (by decide)).1, h2.2.2 (by decide)⟩

theorem FsPath.name_child (p : FsPath) (n : String) : (p.child n).name = n := by
  simp [FsPath.name, FsPath.child]

/-- The message of the modal dialog of `validate_package_files`
(lines 208-210), with the file name resolved to `d3dx.ini`. -/
def damagedInstallMsg (active_importer : String) : String :=
  active_importer ++ " installation is damaged!\n" ++
    "Details: Missing critical file: " ++ "d3dx.ini" ++ "!\n" ++
    "Would you like to restore " ++ active_importer ++ " automatically?"

/-- Counterexample to C2: with `d3dx.ini` missing and the user accepting the
restore prompt, `start_game` does NOT stop after firing the forced-reinstall
request — it proceeds to the INI update step (its status event is fired after
the reinstall request) and fails there opening the missing file, so the
`FileNotFoundError` propagates to the caller. -/
theorem start_game_accept_restore_continues :
    (start_game [] ⟨fun _ => .error (.valueError "Game executable not found!"),
        .error (.valueError "autodetect failed"), fun _ => .ok ()⟩
      "XXMI" "XXMI-pkg" ⟨false, false, false, false⟩ true
      ⟨"XXMI", ⟨true, ["C:", "XXMI"]⟩, ⟨true, ["C:", "Game"]⟩, true, []⟩ ⟨[]⟩).events =
      [Event.showErrorDialog true "Restore" "Cancel" (damagedInstallMsg "XXMI"),
       Event.updateRequest true true true ["XXMI-pkg"],
       Event.statusUpdate "Updating d3dx.ini..."] ∧
    (start_game [] ⟨fun _ => .error (.valueError "Game executable not found!"),
        .error (.valueError "autodetect failed"), fun _ => .ok ()⟩
      "XXMI" "XXMI-pkg" ⟨false, false, false, false⟩ true
      ⟨"XXMI", ⟨true, ["C:", "XXMI"]⟩, ⟨true, ["C:", "Game"]⟩, true, []⟩ ⟨[]⟩).error =
      some (.fileNotFoundError ["C:", "XXMI", "d3dx.ini"]) :=
  ⟨rfl, rfl⟩

/-- C2 (amended): with `<importer_path>/d3dx.ini` missing, the synchronous
confirm dialog is shown; if the user declines, `start_game` raises
`CorruptInstallation`; if the user accepts, the forced-reinstall request for
this package is fired and `start_game` then proceeds to the INI update step,
which fails with `FileNotFoundError` on the still-missing file — so no path
resolution and no injection handoff occur, but the INI update is attempted and
its error propagates. -/
theorem start_game_missing_ini (appRoot : FsPath) (hooks : ImporterHooks)
    (active_importer metadata_package_name : String) (mig : MigotoFlags)
    (cfg : ImporterConfig) (fs : FileSystem)
    (hmiss : fs.pathExists ((importer_path appRoot cfg).child "d3dx.ini") = false) :
    start_game appRoot hooks active_importer metadata_package_name mig false cfg fs =
      ⟨[Event.showErrorDialog true "Restore" "Cancel" (damagedInstallMsg active_importer)],
       cfg, fs, some corruptInstallationError⟩ ∧
    start_game appRoot hooks active_importer metadata_package_name mig true cfg fs =
      ⟨[Event.showErrorDialog true "Restore" "Cancel" (damagedInstallMsg active_importer),
        Event.updateRequest true true true [metadata_package_name],
        Event.statusUpdate "Updating d3dx.ini..."],
       cfg, fs, some (.fileNotFoundError ((importer_path appRoot cfg).child "d3dx.ini"))⟩ := by
  have hlook : fs.lookup ((importer_path appRoot cfg).child "d3dx.ini") = none := by
    simpa [FileSystem.pathExists, Option.isSome_iff_exists] using hmiss
  constructor
  · unfold start_game validate_package_files
    simp [hmiss, FsPath.name_child, damagedInstallMsg, corruptInstallationError]
  · unfold start_game validate_package_files update_d3dx_ini
    simp [hmiss, hlook, FsPath.name_child, damagedInstallMsg]

/-- Witness for C2 (amended) at a concrete state: both user decisions, with
the importer installed at `C:\XXMI` and an empty filesystem. -/
theorem start_game_missing_ini_witness :
    start_game [] ⟨fun _ => .error (.valueError "Game executable not found!"),
        .error (.valueError "autodetect failed"), fun _ => .ok ()⟩
      "XXMI" "XXMI-pkg" ⟨false, false, false, false⟩ false
      ⟨"XXMI", ⟨true, ["C:", "XXMI"]⟩, ⟨true, ["C:", "Game"]⟩, true, []⟩ ⟨[]⟩ =
      ⟨[Event.showErrorDialog true "Restore" "Cancel" (damagedInstallMsg "XXMI")],
       ⟨"XXMI", ⟨true, ["C:", "XXMI"]⟩, ⟨true, ["C:", "Game"]⟩, true, []⟩, ⟨[]⟩,
       some corruptInstallationError⟩ :=
  (start_game_missing_ini [] ⟨fun _ => .error (.valueError "Game executable not found!"),
      .error (.valueError "autodetect failed"), fun _ => .ok ()⟩
    "XXMI" "XXMI-pkg" ⟨false, false, false, false⟩
    ⟨"XXMI", ⟨true, ["C:", "XXMI"]⟩, ⟨true, ["C:", "Game"]⟩, true, []⟩ ⟨[]⟩
    (by decide)).1

theorem update_d3dx_ini_events (appRoot : FsPath) (cfg : ImporterConfig)
    (mig : MigotoFlags) (fs : FileSystem) :
    (update_d3dx_ini appRoot cfg mig fs).1 = [Event.statusUpdate "Updating d3dx.ini..."] := by
  unfold update_d3dx_ini
  dsimp only
  split
  · rfl
  · rfl
  · split
    · rfl
    · split <;> rfl

/-- C4: in `start_game`, when the d3dx.ini integrity and INI update steps pass
but validating the configured game folder or locating its executable fails,
exactly one fallback runs: autodetect the game folder, validate it, locate its
executable.  On fallback success the autodetected folder is persisted into the
configuration and the launch continues through the subclass hook to the
`StartAndInject` handoff; when the fallback also fails, an `OpenSettings`
request is fired and `start_game` returns without error — the caller never
observes the original exception. -/
theorem start_game_fallback (appRoot : FsPath) (hooks : ImporterHooks)
    (active_importer metadata_package_name : String) (mig : MigotoFlags)
    (ur : Bool) (cfg : ImporterConfig) (fs fs1 : FileSystem) (e : PyError)
    (hini : fs.pathExists ((importer_path appRoot cfg).child "d3dx.ini") = true)
    (hupd : (update_d3dx_ini appRoot cfg mig fs).2 = .ok fs1)
    (hfail : resolve_game_path fs1 hooks cfg.game_folder = .error e) :
    (∀ gf gp exe, autodetect_resolve fs1 hooks = .ok (gf, gp, exe) →
      hooks.initialize_game_launch gp = .ok () →
      start_game appRoot hooks active_importer metadata_package_name mig ur cfg fs =
        ⟨[Event.statusUpdate "Updating d3dx.ini...", Event.startAndInject exe],
         { cfg with game_folder := gf }, fs1, none⟩) ∧
    (∀ e', autodetect_resolve fs1 hooks = .error e' →
      start_game appRoot hooks active_importer metadata_package_name mig ur cfg fs =
        ⟨[Event.statusUpdate "Updating d3dx.ini...", Event.openSettings],
         cfg, fs1, none⟩) := by
  have hv : validate_package_files appRoot cfg active_importer metadata_package_name
      ur fs = ([], none) := by
    unfold validate_package_files; simp [hini]
  have hpair : update_d3dx_ini appRoot cfg mig fs =
      ([Event.statusUpdate "Updating d3dx.ini..."], .ok fs1) :=
    Prod.ext (update_d3dx_ini_events _ _ _ _) hupd
  constructor
  · intro gf gp exe hauto hinit
    unfold start_game
    rw [hv, hpair]
    simp [hfail, hauto, hinit]
  · intro e' hauto
    unfold start_game
    rw [hv, hpair]
    simp [hfail, hauto]

/-- Concrete five-group `d3dx_ini` mapping used by the C4 witness. -/
def fallbackSampleD3dx : D3dxIni :=
  [("core", [("Loader", [("target", .value (some (.str "XXMI.dll")))])]),
   ("debug_logging", [("Logging", [("debug", .table [("on", some (.int 1)), ("off", some (.int 0))])])]),
   ("mute_warnings", [("Logging", [("show_warnings", .table [("on", some (.int 0)), ("off", some (.int 1))])])]),
   ("enable_hunting", [("Hunting", [("hunting", .table [("on", some (.int 2)), ("off", some (.int 0))])])]),
   ("dump_shaders", [("Hunting", [("marking_actions", .table [("on", some (.str "1")), ("off", some (.str "0"))])])])]

/-- Configuration for the C4 witness: game folder points at a non-existent
directory, so the first resolution attempt fails. -/
def fallbackSampleCfg : ImporterConfig :=
  ⟨"XXMI", ⟨true, ["C:", "XXMI"]⟩, ⟨true, ["C:", "Gone"]⟩, true, fallbackSampleD3dx⟩

/-- Filesystem for the C4 witness: the importer's `d3dx.ini` exists and the
autodetectable game directory `D:\Game` exists. -/
def fallbackSampleFs : FileSystem :=
  ⟨[(["C:", "XXMI", "d3dx.ini"], .file (.ini [])), (["D:", "Game"], .dir)]⟩

/-- The filesystem after the C4 witness's INI update (the five defaults
written). -/
def fallbackSampleFs1 : FileSystem :=
  ⟨[(["C:", "XXMI", "d3dx.ini"], .file (.ini
      [(("Loader", "target"), .scalar (.str "XXMI.dll")),
       (("Logging", "debug"), .scalar (.int 0)),
       (("Logging", "show_warnings"), .scalar (.int 1)),
       (("Hunting", "hunting"), .scalar (.int 0)),
       (("Hunting", "marking_actions"), .scalar (.str "0"))])),
    (["D:", "Game"], .dir)]⟩

/-- Hooks for the C4 witness whose autodetection succeeds with `D:\Game`. -/
def fallbackSampleHooks : ImporterHooks :=
  ⟨fun gp => if gp.components = ["D:", "Game"] then .ok ⟨true, ["D:", "Game", "game.exe"]⟩
             else .error (.valueError "Game executable not found!"),
   .ok ⟨true, ["D:", "Game"]⟩,
   fun _ => .ok ()⟩

/-- Hooks for the C4 witness whose autodetection fails. -/
def noDetectHooks : ImporterHooks :=
  ⟨fun _ => .error (.valueError "Game executable not found!"),
   .error (.valueError "autodetect failed"),
   fun _ => .ok ()⟩

/-- Witness for C4: on a concrete state whose configured game folder is
invalid, a successful autodetect persists `D:\Game` and hands off to
injection, while a failing autodetect ends in `OpenSettings` with no error. -/
theorem start_game_fallback_witness :
    start_game [] fallbackSampleHooks "XXMI" "XXMI-pkg" ⟨false, false, false, false⟩
        false fallbackSampleCfg fallbackSampleFs =
      ⟨[Event.statusUpdate "Updating d3dx.ini...",
        Event.startAndInject ⟨true, ["D:", "Game", "game.exe"]⟩],
       { fallbackSampleCfg with game_folder := ⟨true, ["D:", "Game"]⟩ },
       fallbackSampleFs1, none⟩ ∧
    start_game [] noDetectHooks "XXMI" "XXMI-pkg" ⟨false, false, false, false⟩
        false fallbackSampleCfg fallbackSampleFs =
      ⟨[Event.statusUpdate "Updating d3dx.ini...", Event.openSettings],
       fallbackSampleCfg, fallbackSampleFs1, none⟩ :=
  ⟨(start_game_fallback [] fallbackSampleHooks "XXMI" "XXMI-pkg"
      ⟨false, false, false, false⟩ false fallbackSampleCfg fallbackSampleFs
      fallbackSampleFs1 pathNotFoundError rfl rfl rfl).1
      ⟨true, ["D:", "Game"]⟩ ⟨true, ["D:", "Game"]⟩ ⟨true, ["D:", "Game", "game.exe"]⟩
      rfl rfl,
   (start_game_fallback [] noDetectHooks "XXMI" "XXMI-pkg"
      ⟨false, false, false, false⟩ false fallbackSampleCfg fallbackSampleFs
      fallbackSampleFs1 pathNotFoundError rfl rfl rfl).2
      (.valueError "autodetect failed") rfl⟩

theorem IniDoc.setOption_lookup_self (d : IniDoc) (sec opt : String) (v : IniWriteValue) :
    lookupA (d.setOption sec opt v).options (sec, opt) = some v := by
  unfold IniDoc.setOption
  by_cases h : lookupA d.options (sec, opt) = some v
  · simp [h]
  · simp [h, lookupA_storeA_self]

theorem IniDoc.setOption_lookup_ne (d : IniDoc) (sec opt : String) (v : IniWriteValue)
    (k : String × String) (hk : (sec, opt) ≠ k) :
    lookupA (d.setOption sec opt v).options k = lookupA d.options k := by
  unfold IniDoc.setOption
  by_cases h : lookupA d.options (sec, opt) = some v
  · simp [h]
  · simp [h, lookupA_storeA_ne _ _ _ _ hk]

theorem IniDoc.setOption_fix (d : IniDoc) (sec opt : String) (v : IniWriteValue)
    (h : lookupA d.options (sec, opt) = some v) : d.setOption sec opt v = d := by
  unfold IniDoc.setOption
  simp [h]

theorem applySettingOption_ok {ini ini' : IniDoc} {sec opt : String}
    {values : D3dxEntry} {ty : SettingType} {sv : Option RuntimeValue}
    (h : applySettingOption ini sec opt values ty sv = .ok ini') :
    ∃ key v, resolveSettingValue values ty sv = .ok (key, some v) ∧
      ini' = ini.setOption sec opt v := by
  unfold applySettingOption at h
  rcases hr : resolveSettingValue values ty sv with e | kv
  · rw [hr] at h; exact absurd h (by simp)
  · obtain ⟨key, v⟩ := kv
    rcases v with _ | v
    · rw [hr] at h; exact absurd h (by simp)
    · rw [hr] at h
      cases h
      exact ⟨key, v, rfl, rfl⟩

theorem applySettingOptions_pres {ini ini' : IniDoc} {sec : String}
    {opts : List (String × D3dxEntry)} {ty : SettingType} {sv : Option RuntimeValue}
    (h : applySettingOptions ini sec opts ty sv = .ok ini') (k : String × String)
    (hk : ∀ o ∈ opts.map Prod.fst, (sec, o) ≠ k) :
    lookupA ini'.options k = lookupA ini.options k := by
  induction opts generalizing ini with
  | nil =>
    unfold applySettingOptions at h
    cases h; rfl
  | cons hd tl ih =>
    obtain ⟨o, values⟩ := hd
    unfold applySettingOptions at h
    rcases ha : applySettingOption ini sec o values ty sv with e | ini1
    · rw [ha] at h; exact absurd h (by simp)
    · rw [ha] at h
      obtain ⟨key, v, hres, rfl⟩ := applySettingOption_ok ha
      rw [ih h (fun o' ho' => hk o' (by simp [ho']))]
      exact IniDoc.setOption_lookup_ne _ _ _ _ _ (hk o (by simp))

theorem applySettingOptions_lookup {ini ini' : IniDoc} {sec : String}
    {opts : List (String × D3dxEntry)} {ty : SettingType} {sv : Option RuntimeValue}
    (h : applySettingOptions ini sec opts ty sv = .ok ini')
    (hnd : (opts.map Prod.fst).Nodup) :
    ∀ ov ∈ opts, ∃ key v, resolveSettingValue ov.2 ty sv = .ok (key, some v) ∧
      lookupA ini'.options (sec, ov.1) = some v := by
  induction opts generalizing ini with
  | nil => intro ov hov; cases hov
  | cons hd tl ih =>
    obtain ⟨o, values⟩ := hd
    unfold applySettingOptions at h
    rcases ha : applySettingOption ini sec o values ty sv with e | ini1
    · rw [ha] at h; exact absurd h (by simp)
    · rw [ha] at h
      obtain ⟨key, v, hres, rfl⟩ := applySettingOption_ok ha
      rw [List.map_cons] at hnd
      have hnd' := List.nodup_cons.mp hnd
      intro ov hov
      rcases List.mem_cons.mp hov with rfl | hov'
      · refine ⟨key, v, hres, ?_⟩
        rw [applySettingOptions_pres h (sec, o) ?_]
        · exact IniDoc.setOption_lookup_self _ _ _ _
        · intro o' ho' heq
          have ho2 : o' = o := by simpa using congrArg Prod.snd heq
          exact hnd'.1 (ho2 ▸ ho')
      · exact ih h hnd'.2 ov hov'

theorem applySettingOptions_fix {ini : IniDoc} {sec : String}
    {opts : List (String × D3dxEntry)} {ty : SettingType} {sv : Option RuntimeValue}
    (hall : ∀ ov ∈ opts, ∃ key v, resolveSettingValue ov.2 ty sv = .ok (key, some v) ∧
      lookupA ini.options (sec, ov.1) = some v) :
    applySettingOptions ini sec opts ty sv = .ok ini := by
  induction opts with
  | nil => rfl
  | cons hd tl ih =>
    obtain ⟨o, values⟩ := hd
    obtain ⟨key, v, hres, hlk⟩ := hall (o, values) (by simp)
    have hstep : applySettingOption ini sec o values ty sv = .ok ini := by
      unfold applySettingOption
      rw [hres]
      dsimp only
      rw [IniDoc.setOption_fix _ _ _ _ hlk]
    unfold applySettingOptions
    rw [hstep]
    exact ih (fun ov hov => hall ov (by simp [hov]))

/-- The (section, option) pairs a group of sections writes to. -/
def groupOptionPairs (sections : List (String × List (String × D3dxEntry))) :
    List (String × String) :=
  sections.bind fun so => so.2.map fun ov => (so.1, ov.1)

theorem groupOptionPairs_cons (sec : String) (opts : List (String × D3dxEntry))
    (tl : List (String × List (String × D3dxEntry))) :
    groupOptionPairs ((sec, opts) :: tl) =
      (opts.map fun ov => (sec, ov.1)) ++ groupOptionPairs tl := rfl

theorem applySettingSections_pres {ini ini' : IniDoc}
    {ss : List (String × List (String × D3dxEntry))}
    {ty : SettingType} {sv : Option RuntimeValue}
    (h : applySettingSections ini ss ty sv = .ok ini') (k : String × String)
    (hk : k ∉ groupOptionPairs ss) :
    lookupA ini'.options k = lookupA ini.options k := by
  induction ss generalizing ini with
  | nil =>
    unfold applySettingSections at h
    cases h; rfl
  | cons hd tl ih =>
    obtain ⟨sec, opts⟩ := hd
    unfold applySettingSections at h
    rcases ha : applySettingOptions ini sec opts ty sv with e | ini1
    · rw [ha] at h; exact absurd h (by simp)
    · rw [ha] at h
      rw [groupOptionPairs_cons] at hk
      have htl : k ∉ groupOptionPairs tl := fun hm => hk (List.mem_append.mpr (Or.inr hm))
      have hmap : ∀ o ∈ opts.map Prod.fst, (sec, o) ≠ k := by
        intro o ho heq
        apply hk
        refine List.mem_append.mpr (Or.inl ?_)
        obtain ⟨ov, hov, rfl⟩ := List.mem_map.mp ho
        rw [← heq]
        exact List.mem_map.mpr ⟨ov, hov, rfl⟩
      rw [ih h htl, applySettingOptions_pres ha k hmap]

theorem applySettingSections_lookup {ini ini' : IniDoc}
    {ss : List (String × List (String × D3dxEntry))}
    {ty : SettingType} {sv : Option RuntimeValue}
    (h : applySettingSections ini ss ty sv = .ok ini')
    (hnd : (groupOptionPairs ss).Nodup) :
    ∀ so ∈ ss, ∀ ov ∈ so.2, ∃ key v,
      resolveSettingValue ov.2 ty sv = .ok (key, some v) ∧
      lookupA ini'.options (so.1, ov.1) = some v := by
  induction ss generalizing ini with
  | nil => intro so hso; cases hso
  | cons hd tl ih =>
    obtain ⟨sec, opts⟩ := hd
    unfold applySettingSections at h
    rcases ha : applySettingOptions ini sec opts ty sv with e | ini1
    · rw [ha] at h; exact absurd h (by simp)
    · rw [ha] at h
      rw [groupOptionPairs_cons] at hnd
      have hnd' := List.nodup_append.mp hnd
      intro so hso
      rcases List.mem_cons.mp hso with rfl | hso'
      · intro ov hov
        have hkeys : (opts.map Prod.fst).Nodup := by
          have hrw : (opts.map fun ov => (sec, ov.1)) =
              (opts.map Prod.fst).map (fun o => (sec, o)) := by
            simp [List.map_map]
          have h2 := hnd'.1
          rw [hrw] at h2
          exact h2.of_map
        obtain ⟨key, v, hres, hlk⟩ := applySettingOptions_lookup ha hkeys ov hov
        refine ⟨key, v, hres, ?_⟩
        rw [applySettingSections_pres h (sec, ov.1) ?_]
        · exact hlk
        · intro hm
          exact hnd'.2.2 (List.mem_map.mpr ⟨ov, hov, rfl⟩) hm
      · exact ih h hnd'.2.1 so hso'

theorem applySettingSections_fix {ini : IniDoc}
    {ss : List (String × List (String × D3dxEntry))}
    {ty : SettingType} {sv : Option RuntimeValue}
    (hall : ∀ so ∈ ss, ∀ ov ∈ so.2, ∃ key v,
      resolveSettingValue ov.2 ty sv = .ok (key, some v) ∧
      lookupA ini.options (so.1, ov.1) = some v) :
    applySettingSections ini ss ty sv = .ok ini := by
  induction ss with
  | nil => rfl
  | cons hd tl ih =>
    obtain ⟨sec, opts⟩ := hd
    have hstep : applySettingOptions ini sec opts ty sv = .ok ini :=
      applySettingOptions_fix (fun ov hov => hall (sec, opts) (by simp) ov hov)
    unfold applySettingSections
    rw [hstep]
    exact ih (fun so hso => hall so (by simp [hso]))

theorem set_default_ini_values_ok {d3dx : D3dxIni} {ini ini' : IniDoc}
    {name : String} {ty : SettingType} {sv : Option RuntimeValue}
    (h : set_default_ini_values d3dx ini name ty sv = .ok ini') :
    ∃ ss, lookupA d3dx name = some ss ∧ applySettingSections ini ss ty sv = .ok ini' := by
  unfold set_default_ini_values at h
  rcases hl : lookupA d3dx name with _ | ss
  · rw [hl] at h; exact absurd h (by simp)
  · rw [hl] at h; exact ⟨ss, rfl, h⟩

/-- Sequential execution of several `set_default_ini_values` groups; the five
calls of `update_d3dx_ini` are an instance (see
`projectSettings_eq_runGroups`). -/
def runGroups (d3dx : D3dxIni)
    (groups : List (String × SettingType × Option RuntimeValue)) (ini : IniDoc) :
    Except PyError IniDoc :=
  match groups with
  | [] => .ok ini
  | g :: rest =>
    match set_default_ini_values d3dx ini g.1 g.2.1 g.2.2 with
    | .error e => .error e
    | .ok ini' => runGroups d3dx rest ini'

/-- The five setting groups `update_d3dx_ini` projects (lines 135-139). -/
def migotoGroups (mig : MigotoFlags) :
    List (String × SettingType × Option RuntimeValue) :=
  [("core", .Constant, none),
   ("debug_logging", .Bool, some (.bool mig.debug_logging)),
   ("mute_warnings", .Bool, some (.bool mig.mute_warnings)),
   ("enable_hunting", .Bool, some (.bool mig.enable_hunting)),
   ("dump_shaders", .Bool, some (.bool mig.dump_shaders))]

theorem projectSettings_eq_runGroups (d3dx : D3dxIni) (mig : MigotoFlags)
    (ini : IniDoc) :
    projectSettings d3dx mig ini = runGroups d3dx (migotoGroups mig) ini := by
  simp only [projectSettings, migotoGroups, runGroups, bind, Except.bind]
  rcases h1 : set_default_ini_values d3dx ini "core" SettingType.Constant none
    with e1 | i1
  · rfl
  · dsimp only
    rcases h2 : set_default_ini_values d3dx i1 "debug_logging" SettingType.Bool
        (some (.bool mig.debug_logging)) with e2 | i2
    · rfl
    · dsimp only
      rcases h3 : set_default_ini_values d3dx i2 "mute_warnings" SettingType.Bool
          (some (.bool mig.mute_warnings)) with e3 | i3
      · rfl
      · dsimp only
        rcases h4 : set_default_ini_values d3dx i3 "enable_hunting" SettingType.Bool
            (some (.bool mig.enable_hunting)) with e4 | i4
        · rfl
        · dsimp only
          rcases h5 : set_default_ini_values d3dx i4 "dump_shaders" SettingType.Bool
              (some (.bool mig.dump_shaders)) with e5 | i5
          · rfl
          · rfl

/-- The (section, option) pairs targeted by one named setting group. -/
def settingPairs (d3dx : D3dxIni) (name : String) : List (String × String) :=
  groupOptionPairs ((lookupA d3dx name).getD [])

/-- The (section, option) pairs targeted by a list of groups. -/
def groupsPairs (d3dx : D3dxIni)
    (groups : List (String × SettingType × Option RuntimeValue)) :
    List (String × String) :=
  groups.bind fun g => settingPairs d3dx g.1

theorem groupsPairs_cons (d3dx : D3dxIni)
    (g : String × SettingType × Option RuntimeValue)
    (rest : List (String × SettingType × Option RuntimeValue)) :
    groupsPairs d3dx (g :: rest) = settingPairs d3dx g.1 ++ groupsPairs d3dx rest := rfl

/-- All (section, option) pairs written by the five setting groups of
`update_d3dx_ini` (independent of the runtime flag values). -/
def projectionPairs (d3dx : D3dxIni) : List (String × String) :=
  groupsPairs d3dx (migotoGroups ⟨false, false, false, false⟩)

theorem groupsPairs_migoto (d3dx : D3dxIni) (mig : MigotoFlags) :
    groupsPairs d3dx (migotoGroups mig) = projectionPairs d3dx := rfl

theorem runGroups_pres {d3dx : D3dxIni}
    {groups : List (String × SettingType × Option RuntimeValue)}
    {ini ini' : IniDoc}
    (h : runGroups d3dx groups ini = .ok ini') (k : String × String)
    (hk : k ∉ groupsPairs d3dx groups) :
    lookupA ini'.options k = lookupA ini.options k := by
  induction groups generalizing ini with
  | nil =>
    unfold runGroups at h
    cases h; rfl
  | cons g rest ih =>
    unfold runGroups at h
    rcases hs : set_default_ini_values d3dx ini g.1 g.2.1 g.2.2 with e | ini1
    · rw [hs] at h; exact absurd h (by simp)
    · rw [hs] at h
      obtain ⟨ss, hl, happ⟩ := set_default_ini_values_ok hs
      rw [groupsPairs_cons] at hk
      have htl : k ∉ groupsPairs d3dx rest := fun hm => hk (List.mem_append.mpr (Or.inr hm))
      have hgrp : k ∉ groupOptionPairs ss := by
        intro hm
        apply hk
        refine List.mem_append.mpr (Or.inl ?_)
        unfold settingPairs
        rw [hl]
        exact hm
      rw [ih h htl, applySettingSections_pres happ k hgrp]

theorem runGroups_names {d3dx : D3dxIni}
    {groups : List (String × SettingType × Option RuntimeValue)}
    {ini ini' : IniDoc} (h : runGroups d3dx groups ini = .ok ini') :
    ∀ g ∈ groups, (lookupA d3dx g.1).isSome := by
  induction groups generalizing ini with
  | nil => intro g hg; cases hg
  | cons g0 rest ih =>
    unfold runGroups at h
    rcases hs : set_default_ini_values d3dx ini g0.1 g0.2.1 g0.2.2 with e | ini1
    · rw [hs] at h; exact absurd h (by simp)
    · rw [hs] at h
      intro g hg
      rcases List.mem_cons.mp hg with rfl | hg'
      · obtain ⟨ss, hl, _⟩ := set_default_ini_values_ok hs
        simp [hl]
      · exact ih h g hg'

theorem runGroups_lookup {d3dx : D3dxIni}
    {groups : List (String × SettingType × Option RuntimeValue)}
    {ini ini' : IniDoc}
    (h : runGroups d3dx groups ini = .ok ini')
    (hnd : (groupsPairs d3dx groups).Nodup) :
    ∀ g ∈ groups, ∀ so ∈ (lookupA d3dx g.1).getD [], ∀ ov ∈ so.2,
      ∃ key v, resolveSettingValue ov.2 g.2.1 g.2.2 = .ok (key, some v) ∧
        lookupA ini'.options (so.1, ov.1) = some v := by
  induction groups generalizing ini with
  | nil => intro g hg; cases hg
  | cons g0 rest ih =>
    unfold runGroups at h
    rcases hs : set_default_ini_values d3dx ini g0.1 g0.2.1 g0.2.2 with e | ini1
    · rw [hs] at h; exact absurd h (by simp)
    · rw [hs] at h
      obtain ⟨ss, hl, happ⟩ := set_default_ini_values_ok hs
      rw [groupsPairs_cons] at hnd
      have hnd' := List.nodup_append.mp hnd
      intro g hg
      rcases List.mem_cons.mp hg with rfl | hg'
      · intro so hso ov hov
        rw [hl] at hso
        have hsp : settingPairs d3dx g.1 = groupOptionPairs ss := by
          unfold settingPairs
          rw [hl]
          rfl
        have hndg : (groupOptionPairs ss).Nodup := by
          rw [← hsp]; exact hnd'.1
        obtain ⟨key, v, hres, hlk⟩ := applySettingSections_lookup happ hndg so hso ov hov
        refine ⟨key, v, hres, ?_⟩
        rw [runGroups_pres h (so.1, ov.1) ?_]
        · exact hlk
        · intro hm
          refine hnd'.2.2 ?_ hm
          rw [hsp]
          exact List.mem_bind.mpr ⟨so, hso, List.mem_map.mpr ⟨ov, hov, rfl⟩⟩
      · exact ih h hnd'.2.1 g hg'

theorem runGroups_fix {d3dx : D3dxIni}
    {groups : List (String × SettingType × Option RuntimeValue)} {ini : IniDoc}
    (hnames : ∀ g ∈ groups, (lookupA d3dx g.1).isSome)
    (hall : ∀ g ∈ groups, ∀ so ∈ (lookupA d3dx g.1).getD [], ∀ ov ∈ so.2,
      ∃ key v, resolveSettingValue ov.2 g.2.1 g.2.2 = .ok (key, some v) ∧
        lookupA ini.options (so.1, ov.1) = some v) :
    runGroups d3dx groups ini = .ok ini := by
  induction groups with
  | nil => rfl
  | cons g0 rest ih =>
    have hname := hnames g0 (by simp)
    rcases hl : lookupA d3dx g0.1 with _ | ss
    · rw [hl] at hname; simp at hname
    · have hstep : set_default_ini_values d3dx ini g0.1 g0.2.1 g0.2.2 = .ok ini := by
        unfold set_default_ini_values
        rw [hl]
        exact applySettingSections_fix (fun so hso ov hov => by
          have hmem : so ∈ (lookupA d3dx g0.1).getD [] := by rw [hl]; exact hso
          exact hall g0 (by simp) so hmem ov hov)
      unfold runGroups
      rw [hstep]
      exact ih (fun g hg => hnames g (by simp [hg])) (fun g hg => hall g (by simp [hg]))

/-- Re-running the same groups on the (reset) result of a successful run
changes nothing, provided the targeted (section, option) pairs are pairwise
distinct. -/
theorem runGroups_idem {d3dx : D3dxIni}
    {groups : List (String × SettingType × Option RuntimeValue)}
    {ini ini' : IniDoc}
    (h : runGroups d3dx groups ini = .ok ini')
    (hnd : (groupsPairs d3dx groups).Nodup) :
    runGroups d3dx groups ⟨ini'.options, false⟩ = .ok ⟨ini'.options, false⟩ :=
  runGroups_fix (runGroups_names h)
    (fun g hg so hso ov hov => runGroups_lookup h hnd g hg so hso ov hov)

/-- C5 (amended): re-running `update_d3dx_ini` with unchanged runtime flags on
the state a successful run produced is idempotent provided no two of the five
setting groups target the same (section, option) pair: the projected
document's modified flag stays false on the second call, so the file is not
rewritten and the filesystem is returned unchanged. -/
theorem update_d3dx_ini_idempotent (appRoot : FsPath) (cfg : ImporterConfig)
    (mig : MigotoFlags) (fs fs1 : FileSystem)
    (hnd : (projectionPairs cfg.d3dx_ini).Nodup)
    (h : (update_d3dx_ini appRoot cfg mig fs).2 = .ok fs1) :
    update_d3dx_ini appRoot cfg mig fs1
        = ([Event.statusUpdate "Updating d3dx.ini..."], .ok fs1) ∧
    (∀ c, fs1.lookup ((importer_path appRoot cfg).child "d3dx.ini") = some (.file c) →
      ∃ d, projectSettings cfg.d3dx_ini mig (parseIni c) = .ok d ∧
        d.is_modified = false) := by
  unfold update_d3dx_ini at h ⊢
  dsimp only at h ⊢
  rcases hl : fs.lookup ((importer_path appRoot cfg).child "d3dx.ini") with _ | n <;>
    rw [hl] at h
  · simp at h
  · cases n with
    | dir => simp at h
    | file c =>
      dsimp only at h
      rcases hp : projectSettings cfg.d3dx_ini mig (parseIni c) with e | d1 <;>
        rw [hp] at h
      · simp at h
      · by_cases hm : d1.is_modified
        · simp only [IniDoc.is_modified] at hm
          simp only [IniDoc.is_modified, hm, if_true] at h
          simp only [Except.ok.injEq] at h
          subst h
          have hlk1 : (fs.store ((importer_path appRoot cfg).child "d3dx.ini")
                (.file (.ini d1.options))).lookup
                ((importer_path appRoot cfg).child "d3dx.ini")
              = some (.file (.ini d1.options)) :=
            FileSystem.lookup_store_self _ _ _
          have hrg : runGroups cfg.d3dx_ini (migotoGroups mig) (parseIni c) = .ok d1 := by
            rw [← projectSettings_eq_runGroups]; exact hp
          have hidem := runGroups_idem hrg (by rw [groupsPairs_migoto]; exact hnd)
          have hproj2 : projectSettings cfg.d3dx_ini mig ⟨d1.options, false⟩
              = .ok ⟨d1.options, false⟩ := by
            rw [projectSettings_eq_runGroups]; exact hidem
          constructor
          · rw [hlk1]
            dsimp only
            simp only [parseIni]
            rw [hproj2]
            simp [IniDoc.is_modified]
          · intro c' hc'
            rw [hlk1] at hc'
            simp only [Option.some.injEq, FsNode.file.injEq] at hc'
            subst hc'
            refine ⟨⟨d1.options, false⟩, ?_, rfl⟩
            simp only [parseIni]
            exact hproj2
        · simp only [IniDoc.is_modified] at hm
          simp only [IniDoc.is_modified, hm, if_false] at h
          have h2 : fs = fs1 := by simpa using h
          subst h2
          constructor
          · rw [hl]
            dsimp only
            rw [hp]
            dsimp only
            simp [hm, IniDoc.is_modified]
          · intro c' hc'
            rw [hl] at hc'
            simp only [Option.some.injEq, FsNode.file.injEq] at hc'
            subst hc'
            exact ⟨d1, hp, by simpa [IniDoc.is_modified] using hm⟩

/-- Concrete five-group `d3dx_ini` mapping with pairwise-distinct
(section, option) targets, for the C5 witness. -/
def idemSampleD3dx : D3dxIni :=
  [("core", [("Loader", [("target", .value (some (.str "XXMI.dll")))])]),
   ("debug_logging", [("Logging", [("debug", .table [("on", some (.int 1)), ("off", some (.int 0))])])]),
   ("mute_warnings", [("Logging", [("show_warnings", .table [("on", some (.int 0)), ("off", some (.int 1))])])]),
   ("enable_hunting", [("Hunting", [("hunting", .table [("on", some (.int 2)), ("off", some (.int 0))])])]),
   ("dump_shaders", [("Hunting", [("marking_actions", .table [("on", some (.str "1")), ("off", some (.str "0"))])])])]

/-- Configuration for the C5 witness. -/
def idemSampleCfg : ImporterConfig :=
  ⟨"XXMI", ⟨true, ["C:", "XXMI"]⟩, ⟨true, ["C:", "Game"]⟩, true, idemSampleD3dx⟩

/-- Initial filesystem for the C5 witness: an empty `d3dx.ini`. -/
def idemSampleFs0 : FileSystem :=
  ⟨[(["C:", "XXMI", "d3dx.ini"], .file (.ini []))]⟩

/-- The filesystem the first C5-witness update run produces. -/
def idemSampleFs1 : FileSystem :=
  ⟨[(["C:", "XXMI", "d3dx.ini"], .file (.ini
      [(("Loader", "target"), .scalar (.str "XXMI.dll")),
       (("Logging", "debug"), .scalar (.int 0)),
       (("Logging", "show_warnings"), .scalar (.int 1)),
       (("Hunting", "hunting"), .scalar (.int 0)),
       (("Hunting", "marking_actions"), .scalar (.str "0"))]))]⟩

/-- Witness for C5 (amended): after a concrete first run, the second run
returns the filesystem unchanged (and fires only the status event). -/
theorem update_d3dx_ini_idempotent_witness :
    update_d3dx_ini [] idemSampleCfg ⟨false, false, false, false⟩ idemSampleFs1
      = ([Event.statusUpdate "Updating d3dx.ini..."], .ok idemSampleFs1) :=
  (update_d3dx_ini_idempotent [] idemSampleCfg ⟨false, false, false, false⟩
    idemSampleFs0 idemSampleFs1 (by decide) rfl).1

/-- A `d3dx_ini` mapping in which the `core` group and the `debug_logging`
group both write section `Logging` option `calls`, with different values when
`debug_logging` is off. -/
def conflictD3dx : D3dxIni :=
  [("core", [("Logging", [("calls", .value (some (.int 1)))])]),
   ("debug_logging", [("Logging", [("calls", .table [("on", some (.int 1)), ("off", some (.int 0))])])]),
   ("mute_warnings", [("Logging", [("show_warnings", .table [("on", some (.int 0)), ("off", some (.int 1))])])]),
   ("enable_hunting", [("Hunting", [("hunting", .table [("on", some (.int 2)), ("off", some (.int 0))])])]),
   ("dump_shaders", [("Hunting", [("marking_actions", .table [("on", some (.str "1")), ("off", some (.str "0"))])])])]

/-- Configuration with the conflicting mapping. -/
def conflictCfg : ImporterConfig :=
  ⟨"XXMI", ⟨true, ["C:", "XXMI"]⟩, ⟨true, ["C:", "Game"]⟩, true, conflictD3dx⟩

/-- The option list the first conflicting update run writes to disk. -/
def conflictOpts : List ((String × String) × IniWriteValue) :=
  [(("Logging", "calls"), .scalar (.int 0)),
   (("Logging", "show_warnings"), .scalar (.int 1)),
   (("Hunting", "hunting"), .scalar (.int 0)),
   (("Hunting", "marking_actions"), .scalar (.str "0"))]

/-- Counterexample to C5: with a configuration whose `core` and
`debug_logging` groups write different values to the same (section, option)
pair, the second `update_d3dx_ini` call projects the document with the
modified flag set again (the claim says it remains false), so the file is
rewritten — though with identical content, leaving the filesystem equal. -/
theorem update_d3dx_ini_second_call_modified :
    (update_d3dx_ini [] conflictCfg ⟨false, false, false, false⟩
        ⟨[(["C:", "XXMI", "d3dx.ini"], .file (.ini []))]⟩).2
      = .ok ⟨[(["C:", "XXMI", "d3dx.ini"], .file (.ini conflictOpts))]⟩ ∧
    projectSettings conflictD3dx ⟨false, false, false, false⟩
        (parseIni (.ini conflictOpts))
      = .ok ⟨conflictOpts, true⟩ ∧
    update_d3dx_ini [] conflictCfg ⟨false, false, false, false⟩
        ⟨[(["C:", "XXMI", "d3dx.ini"], .file (.ini conflictOpts))]⟩
      = ([Event.statusUpdate "Updating d3dx.ini..."],
         .ok ⟨[(["C:", "XXMI", "d3dx.ini"], .file (.ini conflictOpts))]⟩) :=
  ⟨rfl, rfl, rfl⟩

end XXMI
